import Mathlib

/-!
Verification development for the SOLPS balance-file loader
(`cherab/solps/formats/balance.py`, function `load_solps_from_balance`).

NumPy arrays are embedded as shape-annotated total index functions into the
exact rationals; axis swaps, axis sums and the elementwise arithmetic of the
loader are modelled pointwise.  The opened netcdf file is embedded as a record
of the variables the loader reads, with `Option` for the variables whose
presence the loader tests at run time (`dab2`, `eirene_mc_eael_she_bal`,
`eirene_mc_papl_sna_bal`).  Python failures are modelled with `Except`:
`nameError` stands for a `NameError` on an unbound local variable, `keyError`
for the `KeyError` of a failed dictionary lookup, and `fileNotFound` for the
error the netcdf reader raises when the path cannot be opened.
-/

namespace SolpsBalance

/-- A 2-d NumPy array over exact rationals: a shape plus a total index function. -/
structure Arr2 where
  d0 : Nat
  d1 : Nat
  get : Nat → Nat → ℚ

/-- A 3-d NumPy array over exact rationals. -/
structure Arr3 where
  d0 : Nat
  d1 : Nat
  d2 : Nat
  get : Nat → Nat → Nat → ℚ

/-- A 4-d NumPy array over exact rationals. -/
structure Arr4 where
  d0 : Nat
  d1 : Nat
  d2 : Nat
  d3 : Nat
  get : Nat → Nat → Nat → Nat → ℚ

/-- `numpy.swapaxes(a, 0, 2)` on a 3-d array. -/
def swapaxes02 (a : Arr3) : Arr3 :=
  ⟨a.d2, a.d1, a.d0, fun i j k => a.get k j i⟩

/-- `numpy.swapaxes(a, 0, 1)` on a 3-d array. -/
def swapaxes01 (a : Arr3) : Arr3 :=
  ⟨a.d1, a.d0, a.d2, fun i j k => a.get j i k⟩

/-- The loader's two-step re-arrangement, applied identically to `crx`, `cry`
and `na`: `swapaxes(x, 0, 2)` followed by `swapaxes(x, 0, 1)`. -/
def reorderAxes (a : Arr3) : Arr3 := swapaxes01 (swapaxes02 a)

/-- The inverse permutation of `reorderAxes`:
`swapaxes(x, 0, 1)` followed by `swapaxes(x, 0, 2)`. -/
def reorderAxesInv (a : Arr3) : Arr3 := swapaxes02 (swapaxes01 a)

/-- `numpy.sum(a, axis=0)` for a 3-d array. -/
def sumAxis0 (a : Arr3) : Arr2 :=
  ⟨a.d1, a.d2, fun i j => (Finset.range a.d0).sum (fun s => a.get s i j)⟩

/-- `numpy.sum(a, axis=0)` for a 4-d array. -/
def sumAxis0of4 (a : Arr4) : Arr3 :=
  ⟨a.d1, a.d2, a.d3, fun c i j => (Finset.range a.d0).sum (fun s => a.get s c i j)⟩

/-- The module constant `Q = 1.602E-19` (elementary charge), as an exact rational. -/
def Q : ℚ := 1602 / 10000000000000000000000

/-- The module dictionary `_popular_species`: key is nuclear charge Z and atomic
mass AMU, value is the element's symbol (the only part of the cherab element
objects the loader uses, through `species.symbol`).  The masses are the literal
values of the source: 2, 12.0, 4.003, 14.0, 20.180, 39.948, 40.0, 83.798, 131.293. -/
def popular_species : List ((Nat × ℚ) × String) :=
  [((1, 2), "D"), ((6, 12), "C"), ((2, 4003 / 1000), "He"), ((7, 14), "N"),
   ((10, 20180 / 1000), "Ne"), ((18, 39948 / 1000), "Ar"), ((18, 40), "Ar"),
   ((36, 83798 / 1000), "Kr"), ((54, 131293 / 1000), "Xe")]

/-- Python dictionary lookup by key equality; `none` models a `KeyError`. -/
def dictLookup : List ((Nat × ℚ) × String) → Nat × ℚ → Option String
  | [], _ => none
  | (k, v) :: rest, key => if k = key then some v else dictLookup rest key

/-- The chain of `if` statements extracting the nuclear charge from columns 1
and 2 of the record's character code.  None of the branches is an `else`: a
test that does not fire leaves `zn` at its previous value, and `zn` is a Python
local that persists across the iterations of the species loop, so `prev` is the
value left over from the previous record (`none` models the variable being
unbound, whose use raises a `NameError`). -/
def decodeZn (prev : Option Nat) (c1 c2 : Char) : Option Nat :=
  let zn0 := prev
  let zn1 := if c1 = 'D' then some 1 else zn0
  let zn2 := if c1 = 'C' then some 6 else zn1
  let zn3 := if c1 = 'N' then some 7 else zn2
  let zn4 := if c1 = 'N' ∧ c2 = 'e' then some 10 else zn3
  let zn5 := if c1 = 'A' ∧ c2 = 'r' then some 18 else zn4
  zn5

/-- The Python error values the loader can produce. -/
inductive LoadErr where
  | sourceNotFound
  | fileNotFound
  | nameError
  | keyError
deriving DecidableEq

/-- One iteration of the species loop: infer the nuclear charge from the
character code (possibly reusing the `zn` left by the previous record), look
up `(zn, am)` in `_popular_species`, and render the label
`species.symbol + str(charge)`.  `za` is the `int(...)` of the charge entry. -/
def decodeRecord (prev : Option Nat) (code : List Char) (am : ℚ) (za : Int) :
    Except LoadErr (Nat × String) :=
  match decodeZn prev (List.getD code 1 ' ') (List.getD code 2 ' ') with
  | none => Except.error LoadErr.nameError
  | some zn =>
    match dictLookup popular_species (zn, am) with
    | none => Except.error LoadErr.keyError
    | some sym => Except.ok (zn, sym ++ toString za)

/-- The species records in raw order: for `i in range(len(am))`, the character
row `species[i]`, the atomic mass `float(am[i])` and the charge `int(za[i])`. -/
def speciesRecords (species : List (List Char)) (am : List ℚ) (za : List Int) :
    List (List Char × ℚ × Int) :=
  (List.range am.length).map (fun i => (List.getD species i [], List.getD am i 0, List.getD za i 0))

/-- The species loop, threading the Python local `zn` from record to record. -/
def speciesLoop : Option Nat → List (List Char × ℚ × Int) → Except LoadErr (List String)
  | _, [] => Except.ok []
  | prev, (code, a, z) :: rest =>
    match decodeRecord prev code a z with
    | Except.error e => Except.error e
    | Except.ok (zn, label) =>
      match speciesLoop (some zn) rest with
      | Except.error e => Except.error e
      | Except.ok labels => Except.ok (label :: labels)

/-- Building `sim.species_list`: run the species loop over all records, with
the local `zn` initially unbound. -/
def speciesLabels (species : List (List Char)) (am : List ℚ) (za : List Int) :
    Except LoadErr (List String) :=
  speciesLoop none (speciesRecords species am za)

/-- The `D0_indx` computation: `if 'D0' in sim.species_list` followed by a loop
that assigns `D0_indx = i` at every index whose label is `'D0'` (so the last
occurrence wins).  `none` models `D0_indx` being left unbound. -/
def d0Index (species_list : List String) : Option Nat :=
  (List.range species_list.length).foldl
    (fun acc i => if List.getD species_list i "" = "D0" then some i else acc) none

/-- The assignment `sim.species_density[:, :, D0_indx] = dab2[0, :, 0:-2]`:
slice `idx` of the species axis is overwritten with channel 0 of `dab2`
(the `0:-2` crop drops the two trailing padding columns, which only affects
which columns of `dab2` are read; pointwise the written value at `(i, j)` is
`dab2[0, i, j]`). -/
def overwriteSlice (sd : Arr3) (idx : Nat) (dab2 : Arr3) : Arr3 :=
  ⟨sd.d0, sd.d1, sd.d2, fun i j k => if k = idx then dab2.get 0 i j else sd.get i j k⟩

/-- The coupled-transport (EIRENE) radiated-power branch:
`abs(b2stel_she_bal/vol + (sum(eirene_mc_eael_she_bal,0)/vol
 - 13.6*sum(eirene_mc_papl_sna_bal,0)[1,:,:]*Q/vol))`.
The first term is 3-d, the other two broadcast over its leading axis. -/
def totalRadEirene (b2stel_she_bal : Arr3) (eirene_mc_eael_she_bal : Arr3)
    (eirene_mc_papl_sna_bal : Arr4) (vol : Arr2) : Arr3 :=
  let b2_ploss : Arr3 :=
    ⟨b2stel_she_bal.d0, b2stel_she_bal.d1, b2stel_she_bal.d2,
      fun s i j => b2stel_she_bal.get s i j / vol.get i j⟩
  let eirene_ecoolrate : Arr2 :=
    ⟨eirene_mc_eael_she_bal.d1, eirene_mc_eael_she_bal.d2,
      fun i j => (sumAxis0 eirene_mc_eael_she_bal).get i j / vol.get i j⟩
  let eirene_potential_loss : Arr2 :=
    ⟨eirene_mc_papl_sna_bal.d2, eirene_mc_papl_sna_bal.d3,
      fun i j => 136 / 10 * (sumAxis0of4 eirene_mc_papl_sna_bal).get 1 i j * Q / vol.get i j⟩
  ⟨b2_ploss.d0, b2_ploss.d1, b2_ploss.d2, fun s i j =>
    |b2_ploss.get s i j + (eirene_ecoolrate.get i j - eirene_potential_loss.get i j)|⟩

/-- The fluid-only radiated-power branch:
`abs(13.6*Q*sum(b2stel_sna_ion_bal,0)/vol - sum(b2stel_she_bal,0)/vol)`. -/
def totalRadFluid (b2stel_she_bal : Arr3) (b2stel_sna_ion_bal : Arr3) (vol : Arr2) : Arr2 :=
  let b2_ploss : Arr2 :=
    ⟨b2stel_she_bal.d1, b2stel_she_bal.d2,
      fun i j => (sumAxis0 b2stel_she_bal).get i j / vol.get i j⟩
  let potential_loss : Arr2 :=
    ⟨b2stel_sna_ion_bal.d1, b2stel_sna_ion_bal.d2,
      fun i j => (sumAxis0 b2stel_sna_ion_bal).get i j / vol.get i j⟩
  ⟨b2_ploss.d0, b2_ploss.d1, fun i j =>
    |136 / 10 * Q * potential_loss.get i j - b2_ploss.get i j|⟩

/-- The total radiated power stored on the simulation: the coupled branch
produces a 3-d array (the 2-d EIRENE terms broadcast over the species axis of
`b2stel_she_bal/vol`), the fluid branch a 2-d array. -/
inductive TotalRad where
  | coupled (a : Arr3)
  | fluid (a : Arr2)

/-- The SOLPS mesh, an external collaborator: the loader only hands it the two
re-arranged corner-coordinate arrays and the cell volumes. -/
structure SOLPSMesh where
  crx : Arr3
  cry : Arr3
  vol : Arr2

/-- The fields of the `SOLPSSimulation` container that the loader populates.
(The inside/outside interpolator is built from external collaborators on the
constant array `ones(num_tris)` and carries no loader-dependent data.) -/
structure SOLPSSimulation where
  mesh : SOLPSMesh
  electron_temperature : Arr2
  electron_density : Arr2
  species_list : List String
  species_density : Arr3
  total_rad : TotalRad

/-- `sim._electron_temperature = te/Q`. -/
def divideByQ (a : Arr2) : Arr2 := ⟨a.d0, a.d1, fun i j => a.get i j / Q⟩

/-- The raw input as the loader sees it: the path predicates and the netcdf
variables read by `load_solps_from_balance`.  The variables whose presence the
loader tests with `in fhandle.variables.keys()` are `Option`s; the rest are
accessed unconditionally.  (`za` holds the integral charge entries, on which
the source's `int(...)` is the identity.) -/
structure RawFields where
  isdir : Bool
  readable : Bool
  crx : Arr3
  cry : Arr3
  vol : Arr2
  te : Arr2
  ne : Arr2
  species : List (List Char)
  am : List ℚ
  za : List Int
  na : Arr3
  dab2 : Option Arr3
  b2stel_she_bal : Arr3
  eirene_mc_eael_she_bal : Option Arr3
  eirene_mc_papl_sna_bal : Option Arr4
  b2stel_sna_ion_bal : Arr3

/-- The observable outcome of one call: the returned simulation or the raised
error, whether control reached the `netcdf.netcdf_file(...)` open call, whether
a file handle was acquired, and whether `fhandle.close()` was executed. -/
structure LoadOutcome where
  result : Except LoadErr SOLPSSimulation
  openAttempted : Bool
  acquired : Bool
  closed : Bool

/-- `load_solps_from_balance`, step for step.

The source starts with `if not os.path.isdir(balance_filename):
RuntimeError("file name must be valid")` - the exception is constructed and
immediately discarded (there is no `raise`), so the check has no effect on
control flow and every call proceeds to the netcdf open; `openAttempted` is
therefore `true` on every path.  `fhandle.close()` appears once, directly
before the `return`, with no `try`/`finally`, so `closed` is `true` only on
the successful path. -/
def load_solps_from_balance (f : RawFields) : LoadOutcome :=
  if f.readable = false then
    { result := Except.error LoadErr.fileNotFound,
      openAttempted := true, acquired := false, closed := false }
  else
    match speciesLabels f.species f.am f.za with
    | Except.error e =>
      { result := Except.error e, openAttempted := true, acquired := true, closed := false }
    | Except.ok labels =>
      match f.dab2 with
      | some dab2 =>
        match d0Index labels with
        | none =>
          { result := Except.error LoadErr.nameError,
            openAttempted := true, acquired := true, closed := false }
        | some idx =>
          match f.eirene_mc_eael_she_bal with
          | none =>
            { result := Except.error LoadErr.nameError,
              openAttempted := true, acquired := true, closed := false }
          | some eael =>
            match f.eirene_mc_papl_sna_bal with
            | none =>
              { result := Except.error LoadErr.nameError,
                openAttempted := true, acquired := true, closed := false }
            | some papl =>
              { result := Except.ok
                  { mesh := { crx := reorderAxes f.crx, cry := reorderAxes f.cry, vol := f.vol },
                    electron_temperature := divideByQ f.te,
                    electron_density := f.ne,
                    species_list := labels,
                    species_density := overwriteSlice (reorderAxes f.na) idx dab2,
                    total_rad := TotalRad.coupled
                      (totalRadEirene f.b2stel_she_bal eael papl f.vol) },
                openAttempted := true, acquired := true, closed := true }
      | none =>
        { result := Except.ok
            { mesh := { crx := reorderAxes f.crx, cry := reorderAxes f.cry, vol := f.vol },
              electron_temperature := divideByQ f.te,
              electron_density := f.ne,
              species_list := labels,
              species_density := reorderAxes f.na,
              total_rad := TotalRad.fluid
                (totalRadFluid f.b2stel_she_bal f.b2stel_sna_ion_bal f.vol) },
          openAttempted := true, acquired := true, closed := true }

/-- Whether the returned result is a successful simulation. -/
def resultOk (o : LoadOutcome) : Bool :=
  match o.result with
  | Except.ok _ => true
  | Except.error _ => false

/-- The simulation carried by a successful outcome (junk on an error). -/
def getSim (o : LoadOutcome) : SOLPSSimulation :=
  match o.result with
  | Except.ok s => s
  | Except.error _ =>
    { mesh := { crx := ⟨0, 0, 0, fun _ _ _ => 0⟩, cry := ⟨0, 0, 0, fun _ _ _ => 0⟩,
                vol := ⟨0, 0, fun _ _ => 0⟩ },
      electron_temperature := ⟨0, 0, fun _ _ => 0⟩,
      electron_density := ⟨0, 0, fun _ _ => 0⟩,
      species_list := [],
      species_density := ⟨0, 0, 0, fun _ _ _ => 0⟩,
      total_rad := TotalRad.fluid ⟨0, 0, fun _ _ => 0⟩ }

/-- The `dab2` array of the well-formed example: one neutral species channel,
2 radial cells, 3 poloidal cells plus the 2 trailing padding columns. -/
def dab2Good : Arr3 := ⟨1, 2, 5, fun _ _ _ => 7⟩

/-- A well-formed coupled-transport input: a 2 x 3 grid, a single deuterium
neutral species (`'D'` in column 1 of the character code, mass 2, charge 0,
so label `"D0"`), and all three EIRENE fields present. -/
def exGood : RawFields where
  isdir := true
  readable := true
  crx := ⟨4, 2, 3, fun _ _ _ => 1⟩
  cry := ⟨4, 2, 3, fun _ _ _ => 2⟩
  vol := ⟨2, 3, fun _ _ => 1⟩
  te := ⟨2, 3, fun _ _ => Q⟩
  ne := ⟨2, 3, fun _ _ => 5⟩
  species := [[' ', 'D', ' ']]
  am := [2]
  za := [0]
  na := ⟨1, 2, 3, fun _ _ _ => 4⟩
  dab2 := some dab2Good
  b2stel_she_bal := ⟨1, 2, 3, fun _ _ _ => -3⟩
  eirene_mc_eael_she_bal := some ⟨1, 2, 3, fun _ _ _ => -2⟩
  eirene_mc_papl_sna_bal := some ⟨1, 2, 2, 3, fun _ _ _ _ => 4⟩
  b2stel_sna_ion_bal := ⟨1, 2, 3, fun _ _ _ => 6⟩

/-- `exGood` with a nonexistent input path. -/
def exMissing : RawFields := { exGood with isdir := false, readable := false }

/-- `exGood` with the coupled-transport field `eirene_mc_eael_she_bal` (and
only it) removed. -/
def exNoEael : RawFields := { exGood with eirene_mc_eael_she_bal := none }

/-- `exGood` with a species record whose `(zn, am)` pair (1, 3) is not a key
of `_popular_species`. -/
def exBadSpecies : RawFields := { exGood with am := [3] }

/-- `exGood` with a single carbon species (label `"C2"`), so the species list
contains no `"D0"`, while `dab2` is still present. -/
def exNoD0 : RawFields := { exGood with species := [[' ', 'C', ' ']], am := [12], za := [2] }

/-- `exNoD0` with `dab2` removed as well. -/
def exNoD0Fluid : RawFields := { exNoD0 with dab2 := none }

/-- A 1 x 2 x 3 array for exercising the axis permutation. -/
def ex5 : Arr3 := ⟨1, 2, 3, fun _ _ _ => 0⟩

/-- Elementwise non-negativity of a stored total-radiated-power array. -/
def nonnegTR : TotalRad → Prop
  | TotalRad.coupled a => ∀ s i j, 0 ≤ a.get s i j
  | TotalRad.fluid a => ∀ i j, 0 ≤ a.get i j

/-- A successful outcome indeed carries `getSim` of itself as its `Except.ok`
payload. -/
theorem result_ok_of_isOk (o : LoadOutcome) (h : resultOk o = true) :
    o.result = Except.ok (getSim o) := by
  unfold resultOk at h
  unfold getSim
  cases hres : o.result with
  | ok s => rfl
  | error e => rw [hres] at h; exact Bool.noConfusion h

/-- Structural inversion of a successful load: the returned simulation's
fields in terms of the raw input, with the two mutually exclusive
radiated-power branches. -/
theorem load_ok_cases (f : RawFields) (s : SOLPSSimulation)
    (h : (load_solps_from_balance f).result = Except.ok s) :
    speciesLabels f.species f.am f.za = Except.ok s.species_list ∧
    s.electron_density = f.ne ∧
    s.electron_temperature = divideByQ f.te ∧
    s.mesh = { crx := reorderAxes f.crx, cry := reorderAxes f.cry, vol := f.vol } ∧
    ((f.dab2 = none ∧ s.species_density = reorderAxes f.na ∧
        s.total_rad = TotalRad.fluid (totalRadFluid f.b2stel_she_bal f.b2stel_sna_ion_bal f.vol)) ∨
      (∃ dab2 idx eael papl, f.dab2 = some dab2 ∧ d0Index s.species_list = some idx ∧
        f.eirene_mc_eael_she_bal = some eael ∧ f.eirene_mc_papl_sna_bal = some papl ∧
        s.species_density = overwriteSlice (reorderAxes f.na) idx dab2 ∧
        s.total_rad = TotalRad.coupled (totalRadEirene f.b2stel_she_bal eael papl f.vol))) := by
  unfold load_solps_from_balance at h
  split at h
  · exact Except.noConfusion h
  · split at h
    · exact Except.noConfusion h
    · rename_i labels hsl
      split at h
      · rename_i dab2 hd
        split at h
        · exact Except.noConfusion h
        · rename_i idx hidx
          split at h
          · exact Except.noConfusion h
          · rename_i eael he
            split at h
            · exact Except.noConfusion h
            · rename_i papl hp
              simp only [Except.ok.injEq] at h
              subst h
              exact ⟨hsl, rfl, rfl, rfl,
                Or.inr ⟨dab2, idx, eael, papl, hd, hidx, he, hp, rfl, rfl⟩⟩
      · rename_i hd
        simp only [Except.ok.injEq] at h
        subst h
        exact ⟨hsl, rfl, rfl, rfl, Or.inl ⟨hd, rfl, rfl⟩⟩

/-- Any species-decoding failure aborts the whole load with the same error. -/
theorem load_species_error (f : RawFields) (e : LoadErr) (hr : f.readable = true)
    (hsl : speciesLabels f.species f.am f.za = Except.error e) :
    (load_solps_from_balance f).result = Except.error e := by
  unfold load_solps_from_balance
  rw [if_neg (by simp [hr])]
  rw [hsl]

/-- C1 counterexample: `exNoEael` has every coupled-transport field except
`eirene_mc_eael_she_bal` (in particular `dab2` is present), yet the load does
not fall back to the fluid-only branch and complete as the claim states - it
takes the coupled branch and aborts with the `NameError` of the unbound local
`eirene_ecoolrate`. -/
theorem C1_counterexample :
    (load_solps_from_balance exNoEael).result = Except.error LoadErr.nameError := rfl

/-- C1 (amended): the two radiated-power branches are mutually exclusive and
total over successful loads, and the branch is selected by the presence of the
kinetic-code neutral-density field `dab2` (not the energy-balance field): a
completed load took the coupled branch exactly when `dab2` was present and the
fluid-only branch exactly when it was absent. -/
theorem C1_theorem (f : RawFields) (s : SOLPSSimulation)
    (h : (load_solps_from_balance f).result = Except.ok s) :
    ((∃ a, s.total_rad = TotalRad.coupled a) ↔ f.dab2.isSome = true) ∧
    ((∃ a, s.total_rad = TotalRad.fluid a) ↔ f.dab2 = none) := by
  rcases (load_ok_cases f s h).2.2.2.2 with ⟨hd, _, htr⟩ |
    ⟨dab2, idx, eael, papl, hd, _, _, _, _, htr⟩ <;> rw [htr, hd] <;> simp

/-- C1 witness: the amended branch-selection law instantiated at the concrete
coupled-transport input `exGood`. -/
theorem C1_witness :
    ((∃ a, (getSim (load_solps_from_balance exGood)).total_rad = TotalRad.coupled a) ↔
      exGood.dab2.isSome = true) ∧
    ((∃ a, (getSim (load_solps_from_balance exGood)).total_rad = TotalRad.fluid a) ↔
      exGood.dab2 = none) :=
  C1_theorem exGood (getSim (load_solps_from_balance exGood))
    (result_ok_of_isOk (load_solps_from_balance exGood) rfl)

/-- C2: on a nonexistent input path the load does not raise
`SourceNotFoundError` before touching the data - the path check constructs a
`RuntimeError` without raising it, so control always reaches the netcdf open
call (`openAttempted` is `true` for every input, third conjunct), and a missing
file fails only inside the reader with its own file-not-found error. -/
theorem C2_theorem :
    (load_solps_from_balance exMissing).result = Except.error LoadErr.fileNotFound ∧
    (load_solps_from_balance exMissing).openAttempted = true ∧
    ∀ f : RawFields, (load_solps_from_balance f).openAttempted = true := by
  refine ⟨rfl, rfl, ?_⟩
  intro f
  unfold load_solps_from_balance
  repeat' split
  all_goals rfl

/-- C3: a record whose character code matches no pattern rule does not fail -
it silently reuses the nuclear charge of the previous record (here the
unmatched code `'X'` after a deuterium record is decoded as deuterium and
labelled `"D1"`).  Only when no earlier record has set `zn` does the loop fail,
with a `NameError`, not a designed error (second conjunct). -/
theorem C3_theorem :
    speciesLabels [[' ', 'D', ' '], [' ', 'X', ' ']] [2, 2] [0, 1] =
      Except.ok ["D0", "D1"] ∧
    speciesLabels [[' ', 'X', ' ']] [2] [0] = Except.error LoadErr.nameError :=
  ⟨rfl, rfl⟩

/-- C4: a species record whose `(zn, am)` pair is a key of `_popular_species`
decodes to the label `symbol + str(charge)`; a pair that is no key makes the
record's decoding fail with the lookup error (`KeyError`, the spec's
`UnknownSpeciesError`), and any species-decoding failure aborts the whole
load with that error. -/
theorem C4_theorem :
    (∀ prev code am za zn sym,
        decodeZn prev (List.getD code 1 ' ') (List.getD code 2 ' ') = some zn →
        dictLookup popular_species (zn, am) = some sym →
        decodeRecord prev code am za = Except.ok (zn, sym ++ toString za)) ∧
    (∀ prev code am za zn,
        decodeZn prev (List.getD code 1 ' ') (List.getD code 2 ' ') = some zn →
        dictLookup popular_species (zn, am) = none →
        decodeRecord prev code am za = Except.error LoadErr.keyError) ∧
    (∀ f e, f.readable = true → speciesLabels f.species f.am f.za = Except.error e →
        (load_solps_from_balance f).result = Except.error e) := by
  refine ⟨?_, ?_, ?_⟩
  · intro prev code am za zn sym h1 h2
    simp only [decodeRecord, h1, h2]
  · intro prev code am za zn h1 h2
    simp only [decodeRecord, h1, h2]
  · intro f e hr hsl
    exact load_species_error f e hr hsl

/-- C4 witness: deuterium with charge 5 decodes to `"D5"`; the pair (1, 3) is
no catalog key, so that record fails with the lookup error, and the load of
`exBadSpecies` (whose only record carries mass 3) aborts with it. -/
theorem C4_witness :
    decodeRecord none [' ', 'D', ' '] 2 5 = Except.ok (1, "D5") ∧
    decodeRecord none [' ', 'D', ' '] 3 0 = Except.error LoadErr.keyError ∧
    (load_solps_from_balance exBadSpecies).result = Except.error LoadErr.keyError :=
  ⟨C4_theorem.1 none [' ', 'D', ' '] 2 5 1 "D" rfl rfl,
   C4_theorem.2.1 none [' ', 'D', ' '] 3 0 1 rfl rfl,
   C4_theorem.2.2 exBadSpecies LoadErr.keyError rfl rfl⟩

/-- C5 counterexample: on the 1 x 2 x 3 array `ex5` (so C = 1, P = 2, R = 3)
the two successive swaps produce leading dimension 2, not the claimed
R = 3: the result has shape (P, R, C) = (2, 3, 1), not (R, P, C) = (3, 2, 1). -/
theorem C5_counterexample :
    (reorderAxes ex5).d0 = 2 ∧
    ¬((reorderAxes ex5).d0 = 3 ∧ (reorderAxes ex5).d1 = 2 ∧ (reorderAxes ex5).d2 = 1) :=
  ⟨rfl, by decide⟩

/-- C5 (amended): the composite of the two axis swaps maps shape (C, P, R) to
(P, R, C) - it moves the leading axis to the trailing position and keeps the
order of the remaining two - with entry relation `out[i][j][k] = in[k][i][j]`,
and the inverse permutation (swap axes 0,1 then swap axes 0,2) recovers the
original array exactly. -/
theorem C5_theorem (a : Arr3) :
    (reorderAxes a).d0 = a.d1 ∧ (reorderAxes a).d1 = a.d2 ∧ (reorderAxes a).d2 = a.d0 ∧
    (∀ i j k, (reorderAxes a).get i j k = a.get k i j) ∧
    reorderAxesInv (reorderAxes a) = a := by
  obtain ⟨d0, d1, d2, g⟩ := a
  exact ⟨rfl, rfl, rfl, fun i j k => rfl, rfl⟩

/-- C6: on a successful load whose species list has its deuterium-neutral
label at index `i` (the index the loop actually binds), the stored species
density at species index `i` equals channel 0 of `dab2` pointwise whenever
`dab2` was present, and equals the untouched re-arranged `na` input whenever
`dab2` was absent. -/
theorem C6_theorem (f : RawFields) (s : SOLPSSimulation) (i : Nat)
    (h : (load_solps_from_balance f).result = Except.ok s)
    (hi : d0Index s.species_list = some i) :
    (∀ dab2, f.dab2 = some dab2 → ∀ r p, s.species_density.get r p i = dab2.get 0 r p) ∧
    (f.dab2 = none → s.species_density = reorderAxes f.na) := by
  rcases (load_ok_cases f s h).2.2.2.2 with ⟨hd, hsd, _⟩ |
    ⟨dab2, idx, eael, papl, hd, hidx, _, _, hsd, _⟩
  · refine ⟨?_, fun _ => hsd⟩
    intro d2 hd2
    rw [hd] at hd2
    exact Option.noConfusion hd2
  · refine ⟨?_, ?_⟩
    · intro d2 hd2 r p
      rw [hd] at hd2
      injection hd2 with hd2
      subst hd2
      rw [hidx] at hi
      injection hi with hi
      subst hi
      rw [hsd]
      simp [overwriteSlice]
    · intro hn
      rw [hd] at hn
      exact Option.noConfusion hn

/-- C6 witness: in the loaded `exGood` (species list `["D0"]`, `dab2` present
with constant value 7) the density of species 0 at cell (0, 0) is 7. -/
theorem C6_witness :
    (getSim (load_solps_from_balance exGood)).species_density.get 0 0 0 = (7 : ℚ) :=
  ((C6_theorem exGood (getSim (load_solps_from_balance exGood)) 0
      (result_ok_of_isOk (load_solps_from_balance exGood) rfl) rfl).1
    dab2Good rfl 0 0).trans rfl

/-- C7: with no `"D0"` in the species list but `dab2` present, the
reconciliation step is not skipped without error - the load aborts with the
`NameError` of the unbound local `D0_indx`; only when the `dab2` field is also
absent does the load complete (second conjunct). -/
theorem C7_theorem :
    (load_solps_from_balance exNoD0).result = Except.error LoadErr.nameError ∧
    resultOk (load_solps_from_balance exNoD0Fluid) = true :=
  ⟨rfl, rfl⟩

/-- C8: whichever radiated-power branch a completed load took, the stored
total radiated power is elementwise non-negative - both branch formulas end
in an absolute value. -/
theorem C8_theorem (f : RawFields) (s : SOLPSSimulation)
    (h : (load_solps_from_balance f).result = Except.ok s) :
    nonnegTR s.total_rad := by
  rcases (load_ok_cases f s h).2.2.2.2 with ⟨_, _, htr⟩ |
    ⟨dab2, idx, eael, papl, _, _, _, _, _, htr⟩ <;> rw [htr]
  · intro i j
    exact abs_nonneg _
  · intro s2 i j
    exact abs_nonneg _

/-- C8 witness: non-negativity instantiated at the concrete input `exGood`,
whose `b2stel_she_bal` and `eirene_mc_eael_she_bal` entries are negative. -/
theorem C8_witness : nonnegTR (getSim (load_solps_from_balance exGood)).total_rad :=
  C8_theorem exGood (getSim (load_solps_from_balance exGood))
    (result_ok_of_isOk (load_solps_from_balance exGood) rfl)

/-- C9 counterexample: on `exBadSpecies` the handle is acquired, the load
raises the species lookup error, and `fhandle.close()` is never executed -
an error exit path on which the handle is not released. -/
theorem C9_counterexample :
    (load_solps_from_balance exBadSpecies).acquired = true ∧
    (load_solps_from_balance exBadSpecies).result = Except.error LoadErr.keyError ∧
    (load_solps_from_balance exBadSpecies).closed = false :=
  ⟨rfl, rfl, rfl⟩

/-- C9 (amended): the file handle is closed exactly on the successful-return
path; every error exit skips the single `fhandle.close()` before the
`return`. -/
theorem C9_theorem (f : RawFields) :
    (load_solps_from_balance f).closed = true ↔
      ∃ s, (load_solps_from_balance f).result = Except.ok s := by
  unfold load_solps_from_balance
  repeat' split
  all_goals simp

/-- C10: the load is deterministic - it is a function of the raw field set
alone, so two invocations on identical contents produce identical outcomes
(the embedding has no state outside the input, matching the source, whose
only module-level data is the constant `_popular_species` table). -/
theorem C10_theorem (f g : RawFields) (h : f = g) :
    load_solps_from_balance f = load_solps_from_balance g := by rw [h]

/-- C10 witness: determinism instantiated at the concrete input `exGood`. -/
theorem C10_witness : load_solps_from_balance exGood = load_solps_from_balance exGood :=
  C10_theorem exGood exGood rfl

end SolpsBalance
